import Mathlib

/-!
Verification of the period-tracker forecast engine and its prediction cache.

The definitions below are a shallow embedding of the TypeScript sources:
  * `backend/src/services/predictionService.ts` (class `PredictionService`),
  * `backend/src/config/redis.ts` (`cacheHelpers`),
  * `backend/src/routes/predictions.ts` (GET /next-period handler),
  * `backend/src/routes/periods.ts` (POST / period-create handler).

Dates are modelled as whole-day numbers (`ℤ`): every stored date is a
calendar date at midnight, `daysBetween` divides an exact multiple of a day
and the surrounding `Math.round` is the identity, and `setDate` arithmetic
on whole days is plain integer addition.  JavaScript numbers on this data
stay inside the exactly-representable range, so they are modelled by `ℚ`.
`Math.sqrt` is the one irrational operation; the service only compares the
standard deviation against the constants 2, 4 and 7 and both sides of each
comparison are non-negative, so the comparisons are embedded in squared
form (`variance < c^2`), which keeps every decision function executable.
`standardDeviationReal` exposes the actual square root for value-level
statements, and `standardDeviationReal_lt_iff` proves the two forms agree.
-/

namespace PeriodsTracker

/-- Flow intensity categories of a tracked record (`flow_intensity`). -/
inductive Flow where
  | light
  | moderate
  | heavy
deriving DecidableEq

/-- One row of the periods table as fetched by the service: start date and
optional end date as whole-day numbers, optional flow category. -/
structure CycleRecord where
  start : ℤ
  endDate : Option ℤ
  flow : Option Flow
deriving DecidableEq

/-- The per-user settings row (`user_settings`), integer day lengths. -/
structure UserSettings where
  avg_cycle_length : ℕ
  avg_period_length : ℕ
deriving DecidableEq

/-- The four regularity tags. -/
inductive Regularity where
  | very_regular
  | regular
  | somewhat_irregular
  | irregular
deriving DecidableEq

/-- `CycleStats` of the service.  `stdDevSq` holds the squared standard
deviation (the population variance); the value the service reports is its
square root, available as `standardDeviationReal`. -/
structure CycleStats where
  avgCycleLength : ℚ
  avgPeriodLength : ℚ
  stdDevSq : ℚ
  regularity : Regularity
  cyclesTracked : ℕ
deriving DecidableEq

/-- `PredictionResult` of the service; dates are whole-day numbers. -/
structure PredictionResult where
  predictedStartDate : ℤ
  predictedEndDate : ℤ
  ovulationStart : ℤ
  ovulationEnd : ℤ
  confidenceScore : ℚ
  predictedFlowIntensity : Option Flow
deriving DecidableEq

/-- Return value of `predictNextPeriod`: a prediction plus the cycle stats. -/
structure SingleForecast where
  result : PredictionResult
  cycleStats : CycleStats
deriving DecidableEq

/-- Return value of `predictMultipleCycles`; element `i` of `predictions`
is the cycle numbered `i + 1`. -/
structure MultiResult where
  predictions : List PredictionResult
  cycleStats : CycleStats
deriving DecidableEq

/-- `daysBetween`: `Math.round(Math.abs((date2 - date1) / oneDay))`; on
whole-day dates the quotient is exact and the rounding is the identity. -/
def daysBetween (date1 date2 : ℤ) : ℤ := |date2 - date1|

/-- `addDays` with an integer day count: `setDate(getDate() + days)`. -/
def addDays (date days : ℤ) : ℤ := date + days

/-- `Math.round`: round half toward positive infinity. -/
def jsRound (q : ℚ) : ℤ := ⌊q + 1 / 2⌋

/-- Truncation toward zero, as applied by `ToIntegerOrInfinity` inside the
JavaScript `setDate` when it receives a fractional day count. -/
def ratTrunc (q : ℚ) : ℤ := if 0 ≤ q then ⌊q⌋ else ⌈q⌉

/-- `addDays` with a fractional day count: `setDate` truncates the sum of
the current day-of-month and the argument toward zero. -/
def addDaysFrac (date : ℤ) (days : ℚ) : ℤ := ratTrunc ((date : ℚ) + days)

/-- JavaScript `x || d` on an optional numeric field: `d` when the field is
absent or zero (zero is falsy). -/
def jsOrNat : Option ℕ → ℕ → ℕ
  | some n, d => if n = 0 then d else n
  | none, d => d

/-- `average`: 0 on the empty list, else the arithmetic mean. -/
def average (numbers : List ℚ) : ℚ :=
  if numbers = [] then 0 else numbers.sum / numbers.length

/-- Square of `standardDeviation`: the population variance (mean of the
squared deviations from the unweighted mean), 0 on the empty list.  The
service returns `Math.sqrt` of this value. -/
def standardDeviationSq (numbers : List ℚ) : ℚ :=
  if numbers = [] then 0
  else average (numbers.map (fun num => (num - average numbers) ^ 2))

/-- The reported standard deviation itself, `Math.sqrt` of the variance. -/
noncomputable def standardDeviationReal (numbers : List ℚ) : ℝ :=
  Real.sqrt (standardDeviationSq numbers)

/-- `calculateCycleLengths`: day gaps between consecutive starts (newest
first), keeping only gaps in `[21, 45]`. -/
def calculateCycleLengths : List CycleRecord → List ℤ
  | current :: previous :: rest =>
    let cycleLength := daysBetween previous.start current.start
    if 21 ≤ cycleLength ∧ cycleLength ≤ 45 then
      cycleLength :: calculateCycleLengths (previous :: rest)
    else
      calculateCycleLengths (previous :: rest)
  | _ => []

/-- The valid cycle lengths of a record list, as rationals. -/
def cycleLengthsQ (periods : List CycleRecord) : List ℚ :=
  (calculateCycleLengths periods).map (Int.cast : ℤ → ℚ)

/-- `periods.filter(p => p.end_date).map(p => daysBetween(start, end) + 1)`:
the duration of every end-dated record. -/
def periodLengthsOf (periods : List CycleRecord) : List ℚ :=
  periods.filterMap (fun p => p.endDate.map (fun e => (daysBetween p.start e : ℚ) + 1))

/-- `calculateCycleStats`.  The regularity comparisons `stdDev < 2 / 4 / 7`
are embedded squared (`variance < 4 / 16 / 49`), which is equivalent since
both sides are non-negative (see `standardDeviationReal_lt_iff`). -/
def calculateCycleStats (periods : List CycleRecord) : CycleStats :=
  let cycleLengths := cycleLengthsQ periods
  let periodLengths := periodLengthsOf periods
  let sdSq := standardDeviationSq cycleLengths
  { avgCycleLength := average cycleLengths
    avgPeriodLength := average periodLengths
    stdDevSq := sdSq
    regularity :=
      if sdSq < 4 then .very_regular
      else if sdSq < 16 then .regular
      else if sdSq < 49 then .somewhat_irregular
      else .irregular
    cyclesTracked := cycleLengths.length }

/-- `calculateWeightedCycleLength`.  `middle3` is `slice(3, min(6, n))`,
written `(drop 3).take 3`, which agrees with the slice for every `n`. -/
def calculateWeightedCycleLength (periods : List CycleRecord) : ℚ :=
  let cycleLengths := cycleLengthsQ periods
  let recent3 := cycleLengths.take 3
  let middle3 := (cycleLengths.drop 3).take 3
  let older := cycleLengths.drop 6
  let recentAvg := if recent3.length > 0 then average recent3 else 0
  let middleAvg := if middle3.length > 0 then average middle3 else recentAvg
  let olderAvg := if older.length > 0 then average older else middleAvg
  if cycleLengths.length ≤ 3 then recentAvg
  else if cycleLengths.length ≤ 6 then recentAvg * 0.7 + middleAvg * 0.3
  else recentAvg * 0.5 + middleAvg * 0.3 + olderAvg * 0.2

/-- `calculateAveragePeriodLength`: durations restricted to `[2, 10]`, with
fixed fallback 5 when none qualify. -/
def calculateAveragePeriodLength (periods : List CycleRecord) : ℚ :=
  let periodLengths :=
    (periodLengthsOf periods).filter (fun len => decide (2 ≤ len ∧ len ≤ 10))
  if periodLengths.length > 0 then average periodLengths else 5

/-- The `finalConfidence` local of `calculateConfidence`, before clamping.
`sdSq` is the squared standard deviation; the tier tests `stdDev < 2 / 4 / 7`
appear squared (see `standardDeviationReal_lt_iff`). -/
def calculateConfidenceRaw (sdSq : ℚ) (dataPoints : ℕ) (avgCycleLength : ℚ) : ℚ :=
  let baseConfidence : ℚ :=
    if sdSq < 4 then 0.92
    else if sdSq < 16 then 0.82
    else if sdSq < 49 then 0.67
    else 0.50
  let dataBoost := min ((dataPoints : ℚ) / 12) 1 * 0.08
  let cycleAdjustment : ℚ :=
    if 26 ≤ avgCycleLength ∧ avgCycleLength ≤ 32 then 0 else -0.05
  baseConfidence + dataBoost + cycleAdjustment

/-- `calculateConfidence`: the raw score clamped to `[0.40, 0.95]`. -/
def calculateConfidence (sdSq : ℚ) (dataPoints : ℕ) (avgCycleLength : ℚ) : ℚ :=
  max 0.40 (min 0.95 (calculateConfidenceRaw sdSq dataPoints avgCycleLength))

/-- The tally a flow category receives in `predictFlowIntensity`: one per
considered record plus 0.5 per record among the three most recent. -/
def flowTally (periodsWithFlow : List CycleRecord) (f : Flow) : ℚ :=
  (periodsWithFlow.countP (fun p => decide (p.flow = some f)) : ℚ)
    + ((periodsWithFlow.take 3).countP (fun p => decide (p.flow = some f)) : ℚ) * 0.5

/-- `predictFlowIntensity`: majority vote with recency bonus; ties resolve
in the object-key insertion order light, moderate, heavy. -/
def predictFlowIntensity (periods : List CycleRecord) : Option Flow :=
  let periodsWithFlow := (periods.filter (fun p => p.flow.isSome)).take 6
  if periodsWithFlow.isEmpty then none
  else
    let maxCount := max (flowTally periodsWithFlow .light)
      (max (flowTally periodsWithFlow .moderate) (flowTally periodsWithFlow .heavy))
    if flowTally periodsWithFlow .light = maxCount then some .light
    else if flowTally periodsWithFlow .moderate = maxCount then some .moderate
    else some .heavy

/-- `useDefaultPrediction`: the cold-start path (fewer than 3 records).
`today` models `new Date()` for the no-records case. -/
def useDefaultPrediction (periods : List CycleRecord) (settings : Option UserSettings)
    (today : ℤ) : SingleForecast :=
  let avgCycleLength := jsOrNat (settings.map (fun s => s.avg_cycle_length)) 28
  let avgPeriodLength := jsOrNat (settings.map (fun s => s.avg_period_length)) 5
  let lastPeriodStart :=
    match periods with
    | p :: _ => p.start
    | [] => today
  let predictedStartDate := addDays lastPeriodStart (avgCycleLength : ℤ)
  let ovulationDay := addDays predictedStartDate (-14)
  { result := {
      predictedStartDate := predictedStartDate
      predictedEndDate := addDays predictedStartDate ((avgPeriodLength : ℤ) - 1)
      ovulationStart := addDays ovulationDay (-5)
      ovulationEnd := addDays ovulationDay 1
      confidenceScore := 0.40 + (periods.length : ℚ) * 0.1
      predictedFlowIntensity := none }
    cycleStats := {
      avgCycleLength := (avgCycleLength : ℚ)
      avgPeriodLength := (avgPeriodLength : ℚ)
      stdDevSq := 0
      regularity := .irregular
      cyclesTracked := periods.length } }

/-- `predictNextPeriod` on the already-fetched record list (newest first,
end-dated, at most 12 — the database query enforces those).  The `[]` arm
of `lastPeriodStart` is unreachable: the branch guarantees `3 ≤ length`. -/
def predictNextPeriod (periods : List CycleRecord) (settings : Option UserSettings)
    (today : ℤ) : SingleForecast :=
  if periods.length < 3 then useDefaultPrediction periods settings today
  else
    let cycleStats := calculateCycleStats periods
    let predictedCycleLength := calculateWeightedCycleLength periods
    let lastPeriodStart :=
      match periods with
      | p :: _ => p.start
      | [] => today
    let predictedStartDate := addDays lastPeriodStart (jsRound predictedCycleLength)
    let avgPeriodLength := calculateAveragePeriodLength periods
    let ovulationDay := addDays predictedStartDate (-14)
    { result := {
        predictedStartDate := predictedStartDate
        predictedEndDate := addDays predictedStartDate (jsRound avgPeriodLength - 1)
        ovulationStart := addDays ovulationDay (-5)
        ovulationEnd := addDays ovulationDay 1
        confidenceScore :=
          calculateConfidence cycleStats.stdDevSq periods.length cycleStats.avgCycleLength
        predictedFlowIntensity := predictFlowIntensity periods }
      cycleStats := cycleStats }

/-- One iteration of the `predictMultipleCycles` loop: cycle `i + 1` from
cycle `i`.  The start-date step passes the fractional `avgCycleLength`
straight to `setDate`, hence `addDaysFrac` (truncation, no rounding). -/
def multiCycleStep (first : SingleForecast) (prev : PredictionResult) (i : ℕ) :
    PredictionResult :=
  let predictedStartDate := addDaysFrac prev.predictedStartDate first.cycleStats.avgCycleLength
  let ovulationDay := addDays predictedStartDate (-14)
  { predictedStartDate := predictedStartDate
    predictedEndDate :=
      addDays predictedStartDate (jsRound first.cycleStats.avgPeriodLength - 1)
    ovulationStart := addDays ovulationDay (-5)
    ovulationEnd := addDays ovulationDay 1
    confidenceScore := max (first.result.confidenceScore * (0.95 : ℚ) ^ i) 0.40
    predictedFlowIntensity := first.result.predictedFlowIntensity }

/-- Cycles `i + 1, i + 2, ...` of the multi-cycle loop, `remaining` many. -/
def multiCycleTail (first : SingleForecast) (prev : PredictionResult) (i : ℕ) :
    ℕ → List PredictionResult
  | 0 => []
  | remaining + 1 =>
    let nxt := multiCycleStep first prev i
    nxt :: multiCycleTail first nxt (i + 1) remaining

/-- `predictMultipleCycles`: cycle 1 is the single-cycle forecast, then the
loop runs for `i = 1 .. numberOfCycles - 1`. -/
def predictMultipleCycles (periods : List CycleRecord) (settings : Option UserSettings)
    (today : ℤ) (numberOfCycles : ℕ) : MultiResult :=
  let first := predictNextPeriod periods settings today
  { predictions := first.result :: multiCycleTail first first.result 1 (numberOfCycles - 1)
    cycleStats := first.cycleStats }

/-! ## The prediction cache (`config/redis.ts` and the two routes) -/

/-- One key in the Redis store: value plus absolute expiry time (seconds).
`SETEX` sets `expiresAt := now + ttl`; a read at or past it misses. -/
structure CacheEntry where
  key : String
  value : String
  expiresAt : ℚ
deriving DecidableEq

/-- A configured Redis client: either reachable with a store, or failing
(every command throws). -/
inductive RedisConn where
  | up (store : List CacheEntry)
  | down
deriving DecidableEq

/-- The module state of `config/redis.ts`: `redis` is `null` when
`REDIS_URL` is unset, otherwise a client. -/
inductive RedisState where
  | unconfigured
  | configured (conn : RedisConn)
deriving DecidableEq

/-- Redis glob matching (`KEYS pattern`), fuelled to keep the recursion
structural.  Only `*` and `?` are modelled; the patterns this service
builds are literal (user ids are UUIDs, free of metacharacters). -/
def globMatchAux : ℕ → List Char → List Char → Bool
  | 0, _, _ => false
  | _ + 1, [], [] => true
  | _ + 1, [], _ :: _ => false
  | fuel + 1, '*' :: ps, [] => globMatchAux fuel ps []
  | fuel + 1, '*' :: ps, c :: cs =>
    globMatchAux fuel ps (c :: cs) || globMatchAux fuel ('*' :: ps) cs
  | _ + 1, '?' :: _ :: _, [] => false
  | fuel + 1, '?' :: ps, _ :: cs => globMatchAux fuel ps cs
  | fuel + 1, p :: ps, c :: cs => p == c && globMatchAux fuel ps cs
  | _ + 1, _ :: _, [] => false

/-- `globMatch pattern s`: does `s` match the Redis glob `pattern`? -/
def globMatch (pat s : String) : Bool :=
  globMatchAux (pat.length + s.length + 1) pat.toList s.toList

/-- `redis.get`: throws when the client is down, else the unexpired value. -/
def redisRawGet (conn : RedisConn) (now : ℚ) (key : String) :
    Except String (Option String) :=
  match conn with
  | .down => .error "connection refused"
  | .up store =>
    match store.find? (fun e => e.key == key) with
    | some e => if now < e.expiresAt then .ok (some e.value) else .ok none
    | none => .ok none

/-- `redis.setex`: throws when down, else replaces the key with TTL. -/
def redisRawSetex (conn : RedisConn) (now : ℚ) (key : String) (ttl : ℚ)
    (value : String) : Except String RedisConn :=
  match conn with
  | .down => .error "connection refused"
  | .up store =>
    .ok (.up ({ key := key, value := value, expiresAt := now + ttl } ::
      store.filter (fun e => !(e.key == key))))

/-- `redis.keys(pattern)`: the keys matching the glob pattern. -/
def redisRawKeys (conn : RedisConn) (pat : String) : Except String (List String) :=
  match conn with
  | .down => .error "connection refused"
  | .up store => .ok ((store.filter (fun e => globMatch pat e.key)).map (fun e => e.key))

/-- `redis.del(...keys)`: removes the listed keys. -/
def redisRawDel (conn : RedisConn) (keys : List String) : Except String RedisConn :=
  match conn with
  | .down => .error "connection refused"
  | .up store => .ok (.up (store.filter (fun e => !(keys.contains e.key))))

/-- `cacheHelpers.get`: `null` when unconfigured; any client error is
caught and logged, and `null` is returned — a miss, never a failure. -/
def cacheGet (st : RedisState) (now : ℚ) (key : String) : Option String :=
  match st with
  | .unconfigured => none
  | .configured conn =>
    match redisRawGet conn now key with
    | .ok v => v
    | .error _ => none

/-- `cacheHelpers.set`: a no-op when unconfigured; a client error is caught
and logged, leaving the state unchanged — never a failure. -/
def cacheSet (st : RedisState) (now : ℚ) (key : String) (value : String)
    (ttl : ℚ) : RedisState :=
  match st with
  | .unconfigured => st
  | .configured conn =>
    match redisRawSetex conn now key ttl value with
    | .ok conn2 => .configured conn2
    | .error _ => .configured conn

/-- `cacheHelpers.delete`: `KEYS pattern` then `DEL` of the matches; a
no-op when unconfigured; errors are caught, leaving the state unchanged. -/
def cacheDelete (st : RedisState) (pat : String) : RedisState :=
  match st with
  | .unconfigured => st
  | .configured conn =>
    match redisRawKeys conn pat with
    | .error _ => .configured conn
    | .ok keys =>
      if keys.length > 0 then
        match redisRawDel conn keys with
        | .ok conn2 => .configured conn2
        | .error _ => .configured conn
      else .configured conn

/-- The cache key built by the GET /next-period handler. -/
def predictionCacheKey (userId : String) : String := "predictions:" ++ userId

/-- Outcome of one GET /next-period request: the state after the request,
the served payload, and the `cached` flag of the response (the engine ran
exactly when `cached = false`). -/
structure NextPeriodRead where
  state : RedisState
  payload : String
  cached : Bool
deriving DecidableEq

/-- The cache-aside logic of the GET /next-period handler; `computed`
stands for the freshly serialized engine output on a miss. -/
def nextPeriodRead (st : RedisState) (now : ℚ) (userId : String)
    (computed : String) : NextPeriodRead :=
  match cacheGet st now (predictionCacheKey userId) with
  | some v => { state := st, payload := v, cached := true }
  | none =>
    { state := cacheSet st now (predictionCacheKey userId) computed 3600
      payload := computed
      cached := false }

/-- The cache effect of the POST / period-create handler:
`cacheHelpers.delete` of the pattern the route builds, which is
`prediction:` followed by the user id (note: no trailing `s`). -/
def createPeriodCacheInvalidation (st : RedisState) (userId : String) : RedisState :=
  cacheDelete st ("prediction:" ++ userId)

/-! ## Concrete histories used in the claim analyses -/

/-- Nine end-dated records (newest first) whose consecutive start-date gaps
are exactly the Scenario B intervals `[28, 27, 27, 29, 28, 26, 28, 29]`. -/
def c7Periods : List CycleRecord :=
  [⟨300, some 304, none⟩, ⟨272, some 276, none⟩, ⟨245, some 249, none⟩,
   ⟨218, some 222, none⟩, ⟨189, some 193, none⟩, ⟨161, some 165, none⟩,
   ⟨135, some 139, none⟩, ⟨107, some 111, none⟩, ⟨78, some 82, none⟩]

/-- Three end-dated records with valid gaps 21 and 22 days: the unweighted
mean cycle length is 21.5, whose round (22) and truncation (21) differ. -/
def c2Periods : List CycleRecord :=
  [⟨100, some 104, none⟩, ⟨79, some 83, none⟩, ⟨57, some 61, none⟩]

/-- Two end-dated records 10 days apart: 2 raw records, 0 valid samples. -/
def c3Periods : List CycleRecord :=
  [⟨20, some 24, none⟩, ⟨10, some 14, none⟩]

/-- Three end-dated records with valid gaps 28 and 28: 3 raw records but
only 2 valid interval samples. -/
def c5Periods : List CycleRecord :=
  [⟨156, some 160, none⟩, ⟨128, some 132, none⟩, ⟨100, some 104, none⟩]

/-- Three end-dated records with durations 15, 5 and 5 days: the first
duration falls outside the accepted range `[2, 10]`. -/
def c8Periods : List CycleRecord :=
  [⟨160, some 174, none⟩, ⟨132, some 136, none⟩, ⟨104, some 108, none⟩]

/-- Three end-dated records whose consecutive gaps (10 and 10 days) are
both outside `[21, 45]`: every interval sample is filtered out. -/
def c10Periods : List CycleRecord :=
  [⟨40, some 44, none⟩, ⟨30, some 34, none⟩, ⟨20, some 24, none⟩]

/-- A cache holding one unexpired forecast for user `u1` under the key the
prediction route uses, written at time 0 with the standard 3600 s TTL. -/
def c1PrimedCache : RedisState :=
  .configured (.up [⟨"predictions:u1", "cachedForecast", 3600⟩])

/-! ## General lemmas about the embedding -/

/-- `average` on a non-empty list is the sum over the length. -/
theorem average_cons (a : ℚ) (l : List ℚ) :
    average (a :: l) = (a :: l).sum / ((a :: l).length : ℚ) :=
  if_neg (List.cons_ne_nil a l)

/-- `standardDeviationSq` on a non-empty list is the mean squared deviation. -/
theorem standardDeviationSq_cons (a : ℚ) (l : List ℚ) :
    standardDeviationSq (a :: l) =
      average ((a :: l).map (fun num => (num - average (a :: l)) ^ 2)) :=
  if_neg (List.cons_ne_nil a l)

/-- The squared-threshold embedding agrees with the source's comparisons of
`Math.sqrt(variance)` against a positive constant. -/
theorem standardDeviationReal_lt_iff (numbers : List ℚ) (c : ℚ) (hc : 0 < c) :
    standardDeviationReal numbers < (c : ℝ) ↔ standardDeviationSq numbers < c ^ 2 := by
  unfold standardDeviationReal
  rw [Real.sqrt_lt' (by exact_mod_cast hc)]
  norm_cast

/-- When every consecutive start-date gap is outside `[21, 45]`, the
validity filter drops every sample. -/
theorem calculateCycleLengths_eq_nil_of_invalid (l : List CycleRecord)
    (h : List.Chain' (fun current previous =>
      daysBetween previous.start current.start < 21 ∨
        45 < daysBetween previous.start current.start) l) :
    calculateCycleLengths l = [] := by
  induction l with
  | nil => rfl
  | cons a t ih =>
    cases t with
    | nil => rfl
    | cons b t2 =>
      have hab := (List.chain'_cons.mp h).1
      have ht := (List.chain'_cons.mp h).2
      simp only [calculateCycleLengths]
      rw [if_neg]
      · exact ih ht
      · rintro ⟨h1, h2⟩
        rcases hab with h3 | h3 <;> omega

/-- Every cycle in the tail of the multi-cycle loop starts the fixed
(truncated) `avgCycleLength` of the first forecast after its predecessor. -/
theorem multiCycleTail_chain (first : SingleForecast) (prev : PredictionResult)
    (i r : ℕ) :
    List.Chain' (fun a b =>
        b.predictedStartDate = addDaysFrac a.predictedStartDate first.cycleStats.avgCycleLength)
      (prev :: multiCycleTail first prev i r) := by
  induction r generalizing prev i with
  | zero => exact List.chain'_singleton prev
  | succ r ih =>
    rw [multiCycleTail]
    exact List.chain'_cons.mpr ⟨rfl, ih (multiCycleStep first prev i) (i + 1)⟩

/-- The single-cycle confidence is clamped on the statistical path and is
`0.40 + 0.1 × record count` with fewer than 3 records, hence in
`[0.40, 0.95]` either way. -/
theorem predictNextPeriod_conf_bounds (periods : List CycleRecord)
    (settings : Option UserSettings) (today : ℤ) :
    0.40 ≤ (predictNextPeriod periods settings today).result.confidenceScore ∧
      (predictNextPeriod periods settings today).result.confidenceScore ≤ 0.95 := by
  unfold predictNextPeriod
  split
  case isTrue h =>
    unfold useDefaultPrediction
    simp only
    have hlen : (periods.length : ℚ) ≤ 2 := by
      have : periods.length ≤ 2 := by omega
      exact_mod_cast this
    have hnn : (0 : ℚ) ≤ (periods.length : ℚ) := by positivity
    constructor
    · nlinarith
    · nlinarith
  case isFalse h =>
    unfold calculateConfidence
    constructor
    · exact le_max_left _ _
    · exact max_le (by norm_num) (min_le_left _ _)

/-- Every prediction in the tail of the multi-cycle loop keeps its
confidence in `[0.40, 0.95]` provided the first forecast's is in range. -/
theorem multiCycleTail_conf_bounds (first : SingleForecast)
    (h1 : 0.40 ≤ first.result.confidenceScore)
    (h2 : first.result.confidenceScore ≤ 0.95) :
    ∀ (prev : PredictionResult) (i r : ℕ),
      ∀ p ∈ multiCycleTail first prev i r,
        0.40 ≤ p.confidenceScore ∧ p.confidenceScore ≤ 0.95 := by
  intro prev i r
  induction r generalizing prev i with
  | zero => intro p hp; simp [multiCycleTail] at hp
  | succ r ih =>
    intro p hp
    rw [multiCycleTail] at hp
    rcases List.mem_cons.mp hp with hh | hh
    · subst hh
      unfold multiCycleStep
      simp only
      refine ⟨le_max_right _ _, max_le ?_ (by norm_num)⟩
      have hpow : (0.95 : ℚ) ^ i ≤ 1 := pow_le_one₀ (by norm_num) (by norm_num)
      have hc0 : (0 : ℚ) ≤ first.result.confidenceScore := le_trans (by norm_num) h1
      calc first.result.confidenceScore * (0.95 : ℚ) ^ i
          ≤ first.result.confidenceScore * 1 := by
            exact mul_le_mul_of_nonneg_left hpow hc0
        _ = first.result.confidenceScore := mul_one _
        _ ≤ 0.95 := h2
    · exact ih _ _ _ hh

/-! ## Claim theorems -/

/-- Claim C1 (code bug).  The prediction route caches under
`predictions:<user-id>` but the period-create route invalidates the pattern
`prediction:<user-id>` (no trailing `s`), which matches no key of the cache.
At the failing input — user `u1` with an unexpired cached forecast — the
write leaves the cached entry in place, and the next read of the prediction
endpoint is served from the cache (`cached = true`, stale payload) instead
of recomputing, although the TTL has not elapsed. -/
theorem c1_invalidation_misses_cache_key :
    cacheGet (createPeriodCacheInvalidation c1PrimedCache "u1") 0
        (predictionCacheKey "u1") = some "cachedForecast" ∧
    (nextPeriodRead (createPeriodCacheInvalidation c1PrimedCache "u1") 0 "u1"
        "freshForecast").cached = true ∧
    (nextPeriodRead (createPeriodCacheInvalidation c1PrimedCache "u1") 0 "u1"
        "freshForecast").payload = "cachedForecast" ∧
    globMatch ("prediction:" ++ "u1") (predictionCacheKey "u1") = false := by
  decide

/-- Claim C2, counterexample.  On `c2Periods` the weighted mean is 21.5 and
the first predicted start is day 122; the claim puts cycle 2 at
122 + round(21.5) = 144, but the code adds the unweighted, unrounded mean
cycle length (also 21.5 here) through `setDate`, which truncates: day 143. -/
theorem c2_counterexample :
    (predictMultipleCycles c2Periods none 0 3).predictions.map
        (fun p => p.predictedStartDate) = [122, 143, 164] ∧
    calculateWeightedCycleLength c2Periods = 43 / 2 ∧
    addDays 122 (jsRound (43 / 2)) = 144 ∧
    (143 : ℤ) ≠ 144 := by
  have hF : predictNextPeriod c2Periods none 0 =
      ⟨⟨122, 126, 103, 109, 0.89, none⟩, ⟨43 / 2, 5, 1 / 4, .very_regular, 2⟩⟩ := by
    unfold predictNextPeriod
    norm_num [c2Periods, calculateCycleStats, cycleLengthsQ, calculateCycleLengths,
      daysBetween, calculateWeightedCycleLength, calculateAveragePeriodLength,
      periodLengthsOf, average_cons, standardDeviationSq_cons, List.take, List.drop,
      List.filterMap, List.filter, calculateConfidence, calculateConfidenceRaw, jsRound,
      addDays, predictFlowIntensity, flowTally, SingleForecast.mk.injEq,
      PredictionResult.mk.injEq, CycleStats.mk.injEq]
  refine ⟨?_, ?_, by norm_num [addDays, jsRound], by norm_num⟩
  · unfold predictMultipleCycles
    rw [hF]
    norm_num [multiCycleTail, multiCycleStep, addDaysFrac, ratTrunc, addDays, jsRound]
  · rw [calculateWeightedCycleLength]
    norm_num [cycleLengthsQ, c2Periods, calculateCycleLengths, daysBetween,
      average_cons, List.take, List.drop]

/-- Claim C2 as amended.  Each subsequent cycle's predicted start equals the
previous cycle's predicted start plus the truncation (not rounding) of the
unweighted mean cycle length `cycleStats.avgCycleLength` (not the weighted
mean); that per-cycle length is derived once from cycle 1's stats and never
recomputed, and on the statistical path it is the plain average of the
filtered interval samples. -/
theorem c2_subsequent_cycle_step (periods : List CycleRecord)
    (settings : Option UserSettings) (today : ℤ) (n : ℕ) :
    List.Chain' (fun a b =>
        b.predictedStartDate =
          addDaysFrac a.predictedStartDate
            (predictMultipleCycles periods settings today n).cycleStats.avgCycleLength)
      (predictMultipleCycles periods settings today n).predictions ∧
    (3 ≤ periods.length →
      (predictMultipleCycles periods settings today n).cycleStats.avgCycleLength =
        average (cycleLengthsQ periods)) := by
  constructor
  · exact multiCycleTail_chain (predictNextPeriod periods settings today) _ 1 (n - 1)
  · intro h
    unfold predictMultipleCycles predictNextPeriod
    rw [if_neg (by omega)]
    rfl

/-- Witness for C2's amended theorem at the concrete history `c2Periods`. -/
theorem c2_subsequent_cycle_step_witness :
    3 ≤ c2Periods.length ∧
    (predictMultipleCycles c2Periods none 0 3).cycleStats.avgCycleLength =
      average (cycleLengthsQ c2Periods) :=
  ⟨by decide, (c2_subsequent_cycle_step c2Periods none 0 3).2 (by decide)⟩

/-- Claim C3, counterexample.  With two records 10 days apart the forecast
takes the default path and reports `cyclesTracked = 2`, the raw record
count, although zero interval samples passed the `[21, 45]` filter. -/
theorem c3_counterexample :
    (predictNextPeriod c3Periods none 0).cycleStats.cyclesTracked = 2 ∧
    (calculateCycleLengths c3Periods).length = 0 ∧
    (2 : ℕ) ≠ 0 := by
  decide

/-- Claim C3 as amended.  On the statistical path (at least 3 records)
`cyclesTracked` equals the number of interval samples that passed the
`[21, 45]` filter; on the default/cold-start path (fewer than 3 records) it
is the raw record count instead. -/
theorem c3_cyclesTracked (periods : List CycleRecord)
    (settings : Option UserSettings) (today : ℤ) :
    (3 ≤ periods.length →
      (predictNextPeriod periods settings today).cycleStats.cyclesTracked =
        (calculateCycleLengths periods).length) ∧
    (periods.length < 3 →
      (predictNextPeriod periods settings today).cycleStats.cyclesTracked =
        periods.length) := by
  constructor
  · intro h
    unfold predictNextPeriod
    rw [if_neg (by omega)]
    show (cycleLengthsQ periods).length = (calculateCycleLengths periods).length
    rw [cycleLengthsQ, List.length_map]
  · intro h
    unfold predictNextPeriod
    rw [if_pos h]
    rfl

/-- Witness for C3's amended theorem: both branches at concrete inputs. -/
theorem c3_cyclesTracked_witness :
    (3 ≤ c7Periods.length ∧
      (predictNextPeriod c7Periods none 0).cycleStats.cyclesTracked =
        (calculateCycleLengths c7Periods).length) ∧
    (c3Periods.length < 3 ∧
      (predictNextPeriod c3Periods none 0).cycleStats.cyclesTracked =
        c3Periods.length) :=
  ⟨⟨by decide, (c3_cyclesTracked c7Periods none 0).1 (by decide)⟩,
   ⟨by decide, (c3_cyclesTracked c3Periods none 0).2 (by decide)⟩⟩

/-- Claim C4 (confirmed).  Every produced confidence — the single-cycle
forecast on either path, and every cycle of a multi-cycle forecast — lies
in `[0.40, 0.95]`: the statistical path clamps, the cold-start formula
`0.40 + 0.1 × record count` has record count at most 2, and the decayed
multi-cycle scores are floored at 0.40 and bounded by cycle 1's score. -/
theorem c4_confidence_clamped (periods : List CycleRecord)
    (settings : Option UserSettings) (today : ℤ) (n : ℕ) :
    (0.40 ≤ (predictNextPeriod periods settings today).result.confidenceScore ∧
      (predictNextPeriod periods settings today).result.confidenceScore ≤ 0.95) ∧
    ∀ p ∈ (predictMultipleCycles periods settings today n).predictions,
      0.40 ≤ p.confidenceScore ∧ p.confidenceScore ≤ 0.95 := by
  have hs := predictNextPeriod_conf_bounds periods settings today
  refine ⟨hs, ?_⟩
  intro p hp
  unfold predictMultipleCycles at hp
  simp only [List.mem_cons] at hp
  rcases hp with hh | hh
  · subst hh; exact hs
  · exact multiCycleTail_conf_bounds _ hs.1 hs.2 _ _ _ _ hh

/-- Witness for C4 at an empty history (cold-start path, 2 cycles). -/
theorem c4_confidence_clamped_witness :
    0.40 ≤ (predictNextPeriod [] none 0).result.confidenceScore ∧
      (predictNextPeriod [] none 0).result.confidenceScore ≤ 0.95 :=
  (c4_confidence_clamped [] none 0 2).2 (predictNextPeriod [] none 0).result
    (by unfold predictMultipleCycles; exact List.mem_cons_self _ _)

/-- Claim C5, counterexample.  On `c5Periods` only 2 interval samples pass
the filter, but the data boost uses the raw fetched record count 3: the
code yields 0.92 + (3/12)·0.08 = 0.94, while the claim's formula with
sample count 2 yields 0.92 + (2/12)·0.08 ≈ 0.9333. -/
theorem c5_counterexample :
    (calculateCycleLengths c5Periods).length = 2 ∧
    (predictNextPeriod c5Periods none 0).result.confidenceScore = 47 / 50 ∧
    (47 / 50 : ℚ) ≠ max 0.40 (min 0.95 (0.92 + min ((2 : ℚ) / 12) 1 * 0.08 + 0)) := by
  refine ⟨rfl, ?_, by norm_num⟩
  unfold predictNextPeriod
  norm_num [c5Periods, calculateCycleStats, cycleLengthsQ, calculateCycleLengths,
    daysBetween, average_cons, standardDeviationSq_cons, calculateConfidence,
    calculateConfidenceRaw, List.take, List.drop, List.filterMap, List.filter,
    periodLengthsOf]

/-- Claim C5 as amended.  On the statistical path the confidence equals
clamp(base + boost + adjustment, 0.40, 0.95) with base from the squared
standard-deviation tier, adjustment 0 iff the mean interval lies in
`[26, 32]`, and the boost `min(count / 12, 1) × 0.08` computed from the raw
fetched record count `periods.length`, not the valid-sample count. -/
theorem c5_confidence_formula (periods : List CycleRecord)
    (settings : Option UserSettings) (today : ℤ) (h : 3 ≤ periods.length) :
    (predictNextPeriod periods settings today).result.confidenceScore =
      max 0.40 (min 0.95
        ((if (calculateCycleStats periods).stdDevSq < 4 then (0.92 : ℚ)
          else if (calculateCycleStats periods).stdDevSq < 16 then 0.82
          else if (calculateCycleStats periods).stdDevSq < 49 then 0.67
          else 0.50)
        + min ((periods.length : ℚ) / 12) 1 * 0.08
        + (if 26 ≤ (calculateCycleStats periods).avgCycleLength ∧
              (calculateCycleStats periods).avgCycleLength ≤ 32 then 0 else -0.05))) := by
  unfold predictNextPeriod
  rw [if_neg (by omega)]
  rfl

/-- Witness for C5's amended theorem at the nine-record history. -/
theorem c5_confidence_formula_witness :
    3 ≤ c7Periods.length ∧
    (predictNextPeriod c7Periods none 0).result.confidenceScore =
      max 0.40 (min 0.95
        ((if (calculateCycleStats c7Periods).stdDevSq < 4 then (0.92 : ℚ)
          else if (calculateCycleStats c7Periods).stdDevSq < 16 then 0.82
          else if (calculateCycleStats c7Periods).stdDevSq < 49 then 0.67
          else 0.50)
        + min ((c7Periods.length : ℚ) / 12) 1 * 0.08
        + (if 26 ≤ (calculateCycleStats c7Periods).avgCycleLength ∧
              (calculateCycleStats c7Periods).avgCycleLength ≤ 32 then 0 else -0.05))) :=
  ⟨by decide, c5_confidence_formula c7Periods none 0 (by decide)⟩

/-- Claim C6 (confirmed).  The weighted mean follows the three recency
tiers exactly as specified: `n ≤ 3` gives the unweighted mean, `4 ≤ n ≤ 6`
gives recent-3 × 0.7 + remaining × 0.3, and `n ≥ 7` gives recent-3 × 0.5 +
next-3 × 0.3 + remaining × 0.2 (samples newest first). -/
theorem c6_weighted_mean_tiers (periods : List CycleRecord) :
    ((cycleLengthsQ periods).length ≤ 3 →
      calculateWeightedCycleLength periods = average (cycleLengthsQ periods)) ∧
    (4 ≤ (cycleLengthsQ periods).length → (cycleLengthsQ periods).length ≤ 6 →
      calculateWeightedCycleLength periods =
        average ((cycleLengthsQ periods).take 3) * 0.7 +
          average ((cycleLengthsQ periods).drop 3) * 0.3) ∧
    (7 ≤ (cycleLengthsQ periods).length →
      calculateWeightedCycleLength periods =
        average ((cycleLengthsQ periods).take 3) * 0.5 +
          average (((cycleLengthsQ periods).drop 3).take 3) * 0.3 +
          average ((cycleLengthsQ periods).drop 6) * 0.2) := by
  refine ⟨?_, ?_, ?_⟩
  · intro h
    unfold calculateWeightedCycleLength
    dsimp only
    rw [if_pos h, List.take_of_length_le h]
    by_cases hnil : cycleLengthsQ periods = []
    · rw [hnil]
      norm_num [average]
    · rw [if_pos (List.length_pos.mpr hnil)]
  · intro h4 h6
    unfold calculateWeightedCycleLength
    dsimp only
    rw [if_neg (by omega), if_pos h6]
    have hd : ((cycleLengthsQ periods).drop 3).take 3 = (cycleLengthsQ periods).drop 3 :=
      List.take_of_length_le (by rw [List.length_drop]; omega)
    rw [hd]
    have h1 : ((cycleLengthsQ periods).take 3).length > 0 := by
      rw [List.length_take]; omega
    have h2 : ((cycleLengthsQ periods).drop 3).length > 0 := by
      rw [List.length_drop]; omega
    rw [if_pos h1, if_pos h2]
  · intro h7
    unfold calculateWeightedCycleLength
    dsimp only
    rw [if_neg (by omega), if_neg (by omega)]
    have h1 : ((cycleLengthsQ periods).take 3).length > 0 := by
      rw [List.length_take]; omega
    have h2 : (((cycleLengthsQ periods).drop 3).take 3).length > 0 := by
      rw [List.length_take, List.length_drop]; omega
    have h3 : ((cycleLengthsQ periods).drop 6).length > 0 := by
      rw [List.length_drop]; omega
    rw [if_pos h1, if_pos h2, if_pos h3]

/-- Witness for C6 at the eight-sample history (the `n ≥ 7` tier). -/
theorem c6_weighted_mean_tiers_witness :
    7 ≤ (cycleLengthsQ c7Periods).length ∧
    calculateWeightedCycleLength c7Periods =
      average ((cycleLengthsQ c7Periods).take 3) * 0.5 +
        average (((cycleLengthsQ c7Periods).drop 3).take 3) * 0.3 +
        average ((cycleLengthsQ c7Periods).drop 6) * 0.2 :=
  ⟨by decide, (c6_weighted_mean_tiers c7Periods).2.2 (by decide)⟩

/-- Claim C7, counterexample.  On the nine-record history realizing the
Scenario B intervals the weighted mean is 83/3 = 27.666…, not 27.625. -/
theorem c7_counterexample :
    calculateCycleLengths c7Periods = [28, 27, 27, 29, 28, 26, 28, 29] ∧
    calculateWeightedCycleLength c7Periods ≠ 27.625 := by
  have h1 : calculateCycleLengths c7Periods = [28, 27, 27, 29, 28, 26, 28, 29] := rfl
  have h2 : cycleLengthsQ c7Periods = [28, 27, 27, 29, 28, 26, 28, 29] := by
    rw [cycleLengthsQ, h1]; norm_num
  have hw : calculateWeightedCycleLength c7Periods = 83 / 3 := by
    unfold calculateWeightedCycleLength
    rw [h2]
    norm_num [average_cons, List.take, List.drop]
  exact ⟨h1, by rw [hw]; norm_num⟩

/-- Claim C7 as amended.  Scenario B's history (8 valid samples from the 9
fetched records) yields weighted mean 83/3 ≈ 27.667, standard deviation
√(15/16) ≈ 0.968 (within 0.97 ± 0.01), regularity very_regular, a raw
confidence of exactly 0.98 (base 0.92 + boost (9/12)·0.08 = 0.06, the boost
counting the 9 records), and a clamped confidence of 0.95. -/
theorem c7_scenario_b :
    calculateCycleLengths c7Periods = [28, 27, 27, 29, 28, 26, 28, 29] ∧
    calculateWeightedCycleLength c7Periods = 83 / 3 ∧
    (calculateCycleStats c7Periods).stdDevSq = 15 / 16 ∧
    (0.96 : ℝ) ≤ standardDeviationReal (cycleLengthsQ c7Periods) ∧
    standardDeviationReal (cycleLengthsQ c7Periods) ≤ 0.98 ∧
    (calculateCycleStats c7Periods).regularity = .very_regular ∧
    calculateConfidenceRaw (calculateCycleStats c7Periods).stdDevSq c7Periods.length
        (calculateCycleStats c7Periods).avgCycleLength = 0.98 ∧
    (predictNextPeriod c7Periods none 0).result.confidenceScore = 0.95 := by
  have h1 : calculateCycleLengths c7Periods = [28, 27, 27, 29, 28, 26, 28, 29] := rfl
  have h2 : cycleLengthsQ c7Periods = [28, 27, 27, 29, 28, 26, 28, 29] := by
    rw [cycleLengthsQ, h1]; norm_num
  have hw : calculateWeightedCycleLength c7Periods = 83 / 3 := by
    unfold calculateWeightedCycleLength
    rw [h2]
    norm_num [average_cons, List.take, List.drop]
  have hv : standardDeviationSq (cycleLengthsQ c7Periods) = 15 / 16 := by
    rw [h2]
    norm_num [standardDeviationSq_cons, average_cons]
  have hsd : (calculateCycleStats c7Periods).stdDevSq = 15 / 16 := hv
  have havg : (calculateCycleStats c7Periods).avgCycleLength = 111 / 4 := by
    show average (cycleLengthsQ c7Periods) = 111 / 4
    rw [h2]
    norm_num [average_cons]
  have hlen : c7Periods.length = 9 := rfl
  have hraw : calculateConfidenceRaw ((15 : ℚ) / 16) 9 (111 / 4) = 0.98 := by
    norm_num [calculateConfidenceRaw]
  have hsqrt : standardDeviationReal (cycleLengthsQ c7Periods) =
      Real.sqrt (((15 : ℚ) / 16 : ℚ) : ℝ) := by
    rw [standardDeviationReal, hv]
  refine ⟨h1, hw, hsd, ?_, ?_, ?_, ?_, ?_⟩
  · rw [hsqrt]
    rw [Real.le_sqrt' (by norm_num)]
    norm_num
  · rw [hsqrt]
    rw [Real.sqrt_le_left (by norm_num)]
    norm_num
  · show (if standardDeviationSq (cycleLengthsQ c7Periods) < 4 then Regularity.very_regular
      else if standardDeviationSq (cycleLengthsQ c7Periods) < 16 then .regular
      else if standardDeviationSq (cycleLengthsQ c7Periods) < 49 then .somewhat_irregular
      else .irregular) = .very_regular
    rw [hv]
    norm_num
  · rw [hsd, havg, hlen]
    exact hraw
  · unfold predictNextPeriod
    rw [if_neg (by decide)]
    show calculateConfidence (calculateCycleStats c7Periods).stdDevSq c7Periods.length
        (calculateCycleStats c7Periods).avgCycleLength = 0.95
    rw [calculateConfidence, hsd, havg, hlen, hraw]
    norm_num

/-- Claim C8, counterexample.  With durations 15, 5 and 5 days, the value
reported in `CycleStats` is the unrestricted mean 25/3 ≈ 8.33, not the
`[2, 10]`-filtered mean 5 the claim prescribes. -/
theorem c8_counterexample :
    (calculateCycleStats c8Periods).avgPeriodLength = 25 / 3 ∧
    calculateAveragePeriodLength c8Periods = 5 ∧
    (25 / 3 : ℚ) ≠ 5 := by
  refine ⟨?_, ?_, by norm_num⟩
  · show average (periodLengthsOf c8Periods) = 25 / 3
    norm_num [periodLengthsOf, c8Periods, daysBetween, average_cons, List.filterMap]
  · rw [calculateAveragePeriodLength]
    norm_num [periodLengthsOf, c8Periods, daysBetween, average_cons, List.filterMap,
      List.filter_cons, decide_eq_true_eq]

/-- Claim C8 as amended.  The duration average reported in `CycleStats` is
the unrestricted mean over end-dated records (0 if none); the mean
restricted to `[2, 10]` with fallback 5 is `calculateAveragePeriodLength`,
which feeds only the predicted end date. -/
theorem c8_avgPeriodLength_reporting (periods : List CycleRecord)
    (settings : Option UserSettings) (today : ℤ) :
    (calculateCycleStats periods).avgPeriodLength = average (periodLengthsOf periods) ∧
    calculateAveragePeriodLength periods =
      (if ((periodLengthsOf periods).filter
            (fun len => decide (2 ≤ len ∧ len ≤ 10))).length > 0
        then average ((periodLengthsOf periods).filter
            (fun len => decide (2 ≤ len ∧ len ≤ 10)))
        else 5) ∧
    (3 ≤ periods.length →
      (predictNextPeriod periods settings today).result.predictedEndDate =
        addDays (predictNextPeriod periods settings today).result.predictedStartDate
          (jsRound (calculateAveragePeriodLength periods) - 1)) := by
  refine ⟨rfl, rfl, ?_⟩
  intro h
  unfold predictNextPeriod
  rw [if_neg (by omega)]

/-- Witness for C8's amended theorem at the three-record history. -/
theorem c8_avgPeriodLength_reporting_witness :
    3 ≤ c8Periods.length ∧
    (predictNextPeriod c8Periods none 0).result.predictedEndDate =
      addDays (predictNextPeriod c8Periods none 0).result.predictedStartDate
        (jsRound (calculateAveragePeriodLength c8Periods) - 1) :=
  ⟨by decide, (c8_avgPeriodLength_reporting c8Periods none 0).2.2 (by decide)⟩

/-- Claim C9 (confirmed).  When the backing store is unconfigured
(`REDIS_URL` unset) or the client fails, `get` returns a miss, `set` and
`delete` leave the state unchanged, and the caught errors never escape:
the cache degrades to always-miss instead of failing the request. -/
theorem c9_cache_degrades (st : RedisState) (now ttl : ℚ) (key value pat : String)
    (h : st = .unconfigured ∨ st = .configured .down) :
    cacheGet st now key = none ∧
    cacheSet st now key value ttl = st ∧
    cacheDelete st pat = st := by
  rcases h with h | h <;> subst h <;> exact ⟨rfl, rfl, rfl⟩

/-- Witness for C9 with an unconfigured store and the service's keys. -/
theorem c9_cache_degrades_witness :
    cacheGet .unconfigured 0 "predictions:u1" = none ∧
    cacheSet .unconfigured 0 "predictions:u1" "payload" 3600 = .unconfigured ∧
    cacheDelete .unconfigured "prediction:u1" = .unconfigured :=
  c9_cache_degrades .unconfigured 0 3600 "predictions:u1" "payload" "prediction:u1"
    (Or.inl rfl)

/-- Claim C10 (confirmed).  With at least 3 end-dated records whose
consecutive gaps all fall outside `[21, 45]`, the statistical path runs to
completion on an empty sample list: mean cycle length 0 (the empty-list
average), squared deviation 0 (so the reported standard deviation is 0),
regularity very_regular, 0 cycles tracked, and a predicted start equal to
the newest record's start plus round(0) = 0 days. -/
theorem c10_out_of_range_history (p0 : CycleRecord) (rest : List CycleRecord)
    (settings : Option UserSettings) (today : ℤ)
    (hlen : 3 ≤ (p0 :: rest).length)
    (_hend : ∀ p ∈ p0 :: rest, p.endDate.isSome = true)
    (hchain : List.Chain' (fun current previous =>
        daysBetween previous.start current.start < 21 ∨
          45 < daysBetween previous.start current.start) (p0 :: rest)) :
    (predictNextPeriod (p0 :: rest) settings today).cycleStats.avgCycleLength = 0 ∧
    (predictNextPeriod (p0 :: rest) settings today).cycleStats.stdDevSq = 0 ∧
    standardDeviationReal (cycleLengthsQ (p0 :: rest)) = 0 ∧
    (predictNextPeriod (p0 :: rest) settings today).cycleStats.regularity =
      .very_regular ∧
    (predictNextPeriod (p0 :: rest) settings today).cycleStats.cyclesTracked = 0 ∧
    (predictNextPeriod (p0 :: rest) settings today).result.predictedStartDate =
      addDays p0.start (jsRound 0) ∧
    addDays p0.start (jsRound 0) = p0.start := by
  have hnil : calculateCycleLengths (p0 :: rest) = [] :=
    calculateCycleLengths_eq_nil_of_invalid _ hchain
  have hq : cycleLengthsQ (p0 :: rest) = [] := by rw [cycleLengthsQ, hnil]; rfl
  have hlt : ¬ ((p0 :: rest).length < 3) := by omega
  have hw : calculateWeightedCycleLength (p0 :: rest) = 0 := by
    unfold calculateWeightedCycleLength
    rw [hq]
    norm_num [average]
  have hstats : calculateCycleStats (p0 :: rest) =
      { avgCycleLength := 0, avgPeriodLength := average (periodLengthsOf (p0 :: rest)),
        stdDevSq := 0, regularity := .very_regular, cyclesTracked := 0 } := by
    unfold calculateCycleStats
    rw [hq]
    norm_num [average, standardDeviationSq, CycleStats.mk.injEq]
  have hr : jsRound 0 = 0 := by norm_num [jsRound]
  refine ⟨?_, ?_, ?_, ?_, ?_, ?_, ?_⟩
  · unfold predictNextPeriod
    rw [if_neg hlt, hstats]
  · unfold predictNextPeriod
    rw [if_neg hlt, hstats]
  · rw [standardDeviationReal, hq]
    norm_num [standardDeviationSq]
  · unfold predictNextPeriod
    rw [if_neg hlt, hstats]
  · unfold predictNextPeriod
    rw [if_neg hlt, hstats]
  · unfold predictNextPeriod
    rw [if_neg hlt, hw]
  · simp [hr, addDays]

/-- Witness for C10 at three records with gaps of 10 and 10 days. -/
theorem c10_out_of_range_history_witness :
    (predictNextPeriod c10Periods none 0).cycleStats.avgCycleLength = 0 ∧
    (predictNextPeriod c10Periods none 0).cycleStats.stdDevSq = 0 ∧
    standardDeviationReal (cycleLengthsQ c10Periods) = 0 ∧
    (predictNextPeriod c10Periods none 0).cycleStats.regularity = .very_regular ∧
    (predictNextPeriod c10Periods none 0).cycleStats.cyclesTracked = 0 ∧
    (predictNextPeriod c10Periods none 0).result.predictedStartDate =
      addDays (40 : ℤ) (jsRound 0) ∧
    addDays (40 : ℤ) (jsRound 0) = 40 :=
  c10_out_of_range_history ⟨40, some 44, none⟩
    [⟨30, some 34, none⟩, ⟨20, some 24, none⟩] none 0 (by decide) (by decide)
    (List.chain'_cons.mpr ⟨by decide,
      List.chain'_cons.mpr ⟨by decide, List.chain'_singleton _⟩⟩)

end PeriodsTracker
